import Mathlib

/-
Verification of the aggregation and normalization logic of the
"Insights" marine-data dashboard (src/script.js).

The JavaScript source is shallowly embedded: JavaScript numbers are
modelled as exact rationals (ℚ) or integers where the code only ever
manipulates counts; JavaScript values reaching the generic `display`
helper are modelled by the inductive `JsVal`; fallible asynchronous
fetches are modelled as `Except`-valued functions taking the outcome of
the network request as an explicit argument; `null`/`undefined` record
fields are modelled with `Option`.
-/

namespace Insights

/-! ## JavaScript value model (for the `display` helper, script.js lines 20-25)

`display` receives arbitrary JavaScript values (strings, numbers,
arrays, null, undefined).  Numeric values reaching `display` in this
code base are counts and indices, modelled as integers. -/

inductive JsVal where
  | vnull
  | vundef
  | vstr (s : String)
  | vnum (n : Int)
  | vbool (b : Bool)
  | varr (xs : List JsVal)

mutual

/-- JavaScript `String(v)` / template-literal conversion. -/
def jsToString : JsVal → String
  | .vnull => "null"
  | .vundef => "undefined"
  | .vstr s => s
  | .vnum n => toString n
  | .vbool b => if b then "true" else "false"
  | .varr xs => String.intercalate "," (jsJoinParts xs)

/-- The element strings produced by `Array.prototype.join`:
`null` and `undefined` elements become the empty string there. -/
def jsJoinParts : List JsVal → List String
  | [] => []
  | .vnull :: vs => "" :: jsJoinParts vs
  | .vundef :: vs => "" :: jsJoinParts vs
  | v :: vs => jsToString v :: jsJoinParts vs

end

/-- script.js lines 20-25: the branch condition of `display`:
`value === null || value === undefined || value === "" ||
(Array.isArray(value) && value.length === 0)`. -/
def isEmptyish : JsVal → Bool
  | .vnull => true
  | .vundef => true
  | .vstr s => s = ""
  | .varr xs => xs.isEmpty
  | _ => false

/-- script.js lines 20-25: `display(value, suffix)`. -/
def display (value : JsVal) (suffix : String) : String :=
  if isEmptyish value then "-"
  else jsToString value ++ suffix

/-! ## Coordinate normalization (script.js lines 12-14 and 27-34) -/

/-- script.js lines 12-14: `clamp(value, min, max) = Math.max(min, Math.min(max, value))`. -/
def clamp (value lo hi : ℚ) : ℚ :=
  max lo (min hi value)

structure Coordinate where
  latitude : ℚ
  longitude : ℚ
deriving DecidableEq

/-- script.js lines 27-34: `normalizeCoordsMaybeSwap(lat, lon)`.
If values look flipped (lat outside [-90,90] but lon within), swap. -/
def normalizeCoordsMaybeSwap (lat lon : ℚ) : Coordinate :=
  let looksFlipped := (lat < -90 ∨ lat > 90) ∧ lon ≥ -180 ∧ lon ≤ 180
  if looksFlipped then
    { latitude := clamp lon (-90) 90, longitude := clamp lat (-180) 180 }
  else
    { latitude := clamp lat (-90) 90, longitude := clamp lon (-180) 180 }

/-! ## JavaScript numeric helpers

JavaScript numbers are modelled as exact rationals; `Math.round`,
`Math.floor`, `%`, and `Number.prototype.toFixed` get explicit models. -/

/-- JavaScript `Math.round(x) = floor(x + 0.5)`. -/
def jsRound (q : ℚ) : ℤ :=
  ⌊q + 1/2⌋

/-- JavaScript `Math.floor`. -/
def jsFloor (q : ℚ) : ℤ :=
  ⌊q⌋

/-- JavaScript `x % 1` (remainder truncates toward zero, sign of dividend). -/
def jsMod1 (q : ℚ) : ℚ :=
  q - (if 0 ≤ q then (⌊q⌋ : ℚ) else (⌈q⌉ : ℚ))

/-- Pad a string on the left with zeros up to length `n`
(JavaScript `String.prototype.padStart(n, "0")`). -/
def padZeros (s : String) (n : ℕ) : String :=
  if n ≤ s.length then s
  else String.mk (List.replicate (n - s.length) '0') ++ s

/-- JavaScript `Number.prototype.toFixed(d)` on an exact rational,
rounding ties away from zero. -/
def toFixedQ (d : ℕ) (q : ℚ) : String :=
  let sign := if q < 0 then "-" else ""
  let m : ℕ := (⌊|q| * (10 : ℚ) ^ d + 1/2⌋).toNat
  let ip := m / 10 ^ d
  let fp := m % 10 ^ d
  if d = 0 then sign ++ toString ip
  else sign ++ toString ip ++ "." ++ padZeros (toString fp) d

/-! ## Mock data generator (script.js lines 36-66)

`Math.sin` is an environment-provided pure function; the generator is
parametrized by it, so every claim about `getMockData` holds for any
interpretation of `Math.sin`. -/

structure OceanographicMock where
  seaSurfaceTemperatureC : String
  salinityPsu : String
  chlorophyllMgM3 : String
  waveHeightM : String
deriving DecidableEq

structure FisheriesMock where
  predictedCatchIndex : ℤ
  dominantSpecies : String
  habitatSuitability : ℤ
  advisories : String
deriving DecidableEq

structure MolecularMock where
  eDnaDiversityIndex : String
  potentialTaxaDetected : ℤ
  invasiveRisk : String
  markerGenes : List String
deriving DecidableEq

structure MockData where
  oceanographic : OceanographicMock
  fisheries : FisheriesMock
  molecular : MolecularMock
deriving DecidableEq

/-- script.js lines 36-66: `getMockData(latitude, longitude)`,
deterministic pseudo-random based on coords. -/
def getMockData (mathSin : ℚ → ℚ) (latitude longitude : ℚ) : MockData :=
  let seed : ℚ :=
    |mathSin (latitude * (129898/10000) + longitude * (78233/1000)) * (437585453/10000)|
  let prand : ℚ → ℚ → ℚ → ℚ := fun lo hi factor =>
    let f := if factor = 0 then 1 else factor
    lo + jsMod1 (seed * f) * (hi - lo)
  let oceanographic : OceanographicMock :=
    { seaSurfaceTemperatureC := toFixedQ 1 (prand 18 31 1)
      salinityPsu := toFixedQ 2 (prand 30 37 2)
      chlorophyllMgM3 := toFixedQ 2 (prand (1/20) (7/2) 3)
      waveHeightM := toFixedQ 2 (prand (1/5) 3 4) }
  let fisheries : FisheriesMock :=
    { predictedCatchIndex := jsRound (prand 20 95 5)
      dominantSpecies :=
        (["Sardine", "Mackerel", "Anchovy", "Tuna"].get?
          (jsFloor (prand 0 4 6)).toNat).getD "Sardine"
      habitatSuitability := jsRound (prand 40 98 7)
      advisories :=
        if prand 0 1 8 > 7/10 then "Avoid trawling due to swell"
        else "Conditions favorable for small-scale fishing" }
  let molecular : MolecularMock :=
    { eDnaDiversityIndex := toFixedQ 2 (prand (1/5) (19/20) 9)
      potentialTaxaDetected := jsRound (prand 5 120 10)
      invasiveRisk :=
        (["Low", "Moderate", "High"].get? (jsFloor (prand 0 3 11)).toNat).getD "Low"
      markerGenes := ["COI", "16S", "18S"].take (1 + (jsFloor (prand 1 3 12)).toNat) }
  { oceanographic := oceanographic, fisheries := fisheries, molecular := molecular }

/-! ## Occurrence records and normalization -/

/-- A raw OBIS occurrence record (the fields script.js reads).
The JavaScript field `class` is rendered here as `className`. -/
structure ObisRecord where
  scientificName : Option String
  family : Option String
  genus : Option String
  className : Option String
  eventDate : Option String
  minimumDepthInMeters : Option ℚ
deriving DecidableEq

/-- JavaScript truthiness filter for an optional string:
absent and `""` are falsy. -/
def truthyStr : Option String → Option String
  | some s => if s = "" then none else some s
  | none => none

/-- JavaScript truthiness filter for an optional integer: absent and `0` are falsy. -/
def truthyInt : Option Int → Option Int
  | some n => if n = 0 then none else some n
  | none => none

/-- JavaScript truthiness filter for an optional number: absent and `0` are falsy. -/
def truthyQ : Option ℚ → Option ℚ
  | some q => if q = 0 then none else some q
  | none => none

/-- A raw GBIF occurrence record (the fields script.js reads);
`taxonScientificName` stands for the JavaScript `r.taxon?.scientificName`. -/
structure GbifRawRecord where
  scientificName : Option String
  species : Option String
  genericName : Option String
  taxonScientificName : Option String
  eventDate : Option String
  year : Option Int
  month : Option Int
  day : Option Int
  depth : Option ℚ
  minimumDepthInMeters : Option ℚ
  decimalDepth : Option ℚ
deriving DecidableEq

/-- The normalized GBIF record shape produced by `fetchGbifFishOccurrences`. -/
structure GbifNormRecord where
  scientificName : Option String
  eventDate : Option String
  minimumDepthInMeters : Option ℚ
deriving DecidableEq

/-- JavaScript `` String(x || "") `` for an optional number. -/
def numOrEmptyStr (o : Option Int) : String :=
  match truthyInt o with
  | some n => toString n
  | none => ""

/-- script.js lines 153-157: per-record normalization in `fetchGbifFishOccurrences`.
The `eventDate` line is `r.eventDate || r.day || r.month || r.year ? tpl : undefined`;
by JavaScript precedence `||` binds tighter than `?:`, so the whole
disjunction is the condition and the template string is always the one
composed from year/month/day. -/
def gbifNormalizeRecord (r : GbifRawRecord) : GbifNormRecord :=
  { scientificName :=
      truthyStr r.scientificName <|> truthyStr r.species <|>
        truthyStr r.genericName <|> truthyStr r.taxonScientificName
    eventDate :=
      if (truthyStr r.eventDate).isSome || (truthyInt r.day).isSome ||
          (truthyInt r.month).isSome || (truthyInt r.year).isSome then
        some (numOrEmptyStr r.year ++ "-" ++ padZeros (numOrEmptyStr r.month) 2 ++
          "-" ++ padZeros (numOrEmptyStr r.day) 2)
      else none
    minimumDepthInMeters :=
      truthyQ r.depth <|> truthyQ r.minimumDepthInMeters <|> truthyQ r.decimalDepth }

/-! ## Aggregation helpers -/

/-- Duplicate removal keeping the first occurrence of each element,
the semantics of JavaScript `Array.from(new Set(xs))`. -/
def dedupFirst : List String → List String
  | [] => []
  | x :: xs => x :: dedupFirst (xs.filter (fun y => y ≠ x))
termination_by l => l.length
decreasing_by
  simp only [List.length_cons]
  exact Nat.lt_succ_of_le (List.length_filter_le _ _)

/-- One step of `counts[k] = (counts[k] || 0) + 1` on a JavaScript object
modelled as an insertion-ordered association list: an existing key keeps
its position, a new key is appended at the end. -/
def bump : List (String × ℕ) → String → List (String × ℕ)
  | [], k => [(k, 1)]
  | (k', c) :: rest, k =>
    if k' = k then (k', c + 1) :: rest else (k', c) :: bump rest k

/-- The `for (const r of records)` loop of script.js lines 172-175,
counting the truthy values of one optional field. -/
def fieldCounts (field : ObisRecord → Option String) (records : List ObisRecord) :
    List (String × ℕ) :=
  records.foldl
    (fun m r =>
      match truthyStr (field r) with
      | some k => bump m k
      | none => m)
    []

/-- Stable insertion of one entry into a list sorted by count descending:
the new entry goes after every existing entry of greater or equal count. -/
def insertStableDesc (p : String × ℕ) : List (String × ℕ) → List (String × ℕ)
  | [] => [p]
  | q :: qs => if p.2 ≤ q.2 then q :: insertStableDesc p qs else p :: q :: qs

/-- JavaScript `entries.sort((a, b) => b[1] - a[1])`: `Array.prototype.sort`
is stable (ES2019), so on the count preorder it yields the unique stable
descending order, computed here by stable insertion from the left. -/
def sortByCountDesc (l : List (String × ℕ)) : List (String × ℕ) :=
  l.foldl (fun acc p => insertStableDesc p acc) []

/-- Decimal digit value of a character, as kernel-reducible equality tests. -/
def charDigit? (c : Char) : Option ℕ :=
  if c = '0' then some 0
  else if c = '1' then some 1
  else if c = '2' then some 2
  else if c = '3' then some 3
  else if c = '4' then some 4
  else if c = '5' then some 5
  else if c = '6' then some 6
  else if c = '7' then some 7
  else if c = '8' then some 8
  else if c = '9' then some 9
  else none

/-- Value of a list of decimal digits (most significant first);
`none` when some character is not a digit. -/
def digitsVal? : List Char → ℕ → Option ℕ
  | [], acc => some acc
  | c :: rest, acc =>
    match charDigit? c with
    | some d => digitsVal? rest (acc * 10 + d)
    | none => none

/-- ECMAScript array-index test: `some n` when `s` is the canonical
base-10 numeral of a natural number `n ≤ 2^32 - 2` (nonempty, all
digits, no leading zero unless the string is "0"), else `none`. -/
def arrayIndexOf (s : String) : Option ℕ :=
  match s.data with
  | [] => none
  | c :: rest =>
    if c = '0' ∧ rest ≠ [] then none
    else
      match digitsVal? (c :: rest) 0 with
      | some n => if n ≤ 4294967294 then some n else none
      | none => none

/-- Insertion into a list of entries kept ascending by array-index key
(object keys are distinct, so equal indices cannot arise). -/
def insertByKeyAsc (p : String × ℕ) : List (String × ℕ) → List (String × ℕ)
  | [] => [p]
  | q :: qs =>
    if (arrayIndexOf q.1).getD 0 ≤ (arrayIndexOf p.1).getD 0 then
      q :: insertByKeyAsc p qs
    else p :: q :: qs

/-- Ascending sort of array-index entries by their numeric key. -/
def sortByKeyAsc (l : List (String × ℕ)) : List (String × ℕ) :=
  l.foldl (fun acc p => insertByKeyAsc p acc) []

/-- ECMAScript `Object.entries` enumeration order
(OrdinaryOwnPropertyKeys) on an insertion-ordered backing list: keys
that are array indices come first in ascending numeric order, then the
remaining string keys in insertion order. -/
def objectEntries (m : List (String × ℕ)) : List (String × ℕ) :=
  sortByKeyAsc (m.filter (fun p => (arrayIndexOf p.1).isSome)) ++
    m.filter (fun p => (arrayIndexOf p.1).isNone)

/-- script.js line 176: `topK(obj, k)` — `Object.entries(obj)` in the
ECMAScript enumeration order modelled by `objectEntries`, stably sorted
by count descending, sliced to `k`, each formatted as `name (count)`. -/
def topK (counts : List (String × ℕ)) (k : ℕ) : List String :=
  ((sortByCountDesc (objectEntries counts)).take k).map
    (fun p => p.1 ++ " (" ++ toString p.2 ++ ")")

/-! ## Domain summaries and aggregation (script.js lines 164-228) -/

structure BioSummary where
  eDnaDiversityIndex : String
  potentialTaxaDetected : ℕ
  invasiveRisk : String
  markerGenes : List String
  topTaxa : List String
  totalOccurrences : ℕ
  topFamilies : List String
  topGenera : List String
  occurrences : List ObisRecord
deriving DecidableEq

/-- script.js lines 167-187: the biodiversity aggregation performed by
`fetchBiodiversityFromApi` on the OBIS `results` array. -/
def aggregateBiodiversity (records : List ObisRecord) : BioSummary :=
  let taxa := records.filterMap (fun r => truthyStr r.scientificName)
  let uniqueTaxa := dedupFirst taxa
  let familyCounts := fieldCounts (fun r => r.family) records
  let genusCounts := fieldCounts (fun r => r.genus) records
  { eDnaDiversityIndex :=
      if uniqueTaxa.length > 0 then
        toFixedQ 2 (min ((uniqueTaxa.length : ℚ) / 100) (19/20))
      else "0.00"
    potentialTaxaDetected := uniqueTaxa.length
    invasiveRisk := if uniqueTaxa.length > 50 then "Moderate" else "Low"
    markerGenes := ["COI", "16S", "18S"]
    topTaxa := uniqueTaxa.take 5
    totalOccurrences := records.length
    topFamilies := topK familyCounts 3
    topGenera := topK genusCounts 3
    occurrences := records.take 20 }

structure FishSummary where
  predictedCatchIndex : ℤ
  dominantSpecies : String
  habitatSuitability : ℤ
  advisories : String
  totalFishOccurrences : ℕ
  totalFishOccurrencesGbif : ℕ
  totalFishOccurrencesCombined : ℕ
  sampleSpecies : List String
  fishOccurrences : List ObisRecord
  fishOccurrencesGbif : List GbifNormRecord
deriving DecidableEq

/-- script.js lines 200-202: the OBIS records whose `class` field,
defaulted to `""` and lower-cased, equals `"actinopterygii"`. -/
def obisFishOf (obisRecords : List ObisRecord) : List ObisRecord :=
  obisRecords.filter (fun r => (r.className.getD "").toLower = "actinopterygii")

/-- script.js lines 202-204: `combinedSpecies` — the deduplicated
concatenation of the truthy OBIS fish names and the truthy GBIF names. -/
def combinedSpeciesOf (obisRecords : List ObisRecord)
    (gbifFish : List GbifNormRecord) : List String :=
  dedupFirst ((obisFishOf obisRecords).filterMap (fun r => truthyStr r.scientificName) ++
    gbifFish.filterMap (fun r => truthyStr r.scientificName))

/-- script.js line 205: `dominant` — the truthy-or chain
`combinedSpecies[0] || obisRecords[0]?.scientificName ||
gbifFish[0]?.scientificName || "Unknown"`. -/
def dominantSpeciesOf (obisRecords : List ObisRecord)
    (gbifFish : List GbifNormRecord) : String :=
  (truthyStr (combinedSpeciesOf obisRecords gbifFish).head? <|>
    truthyStr (obisRecords.head?.bind (fun r => r.scientificName)) <|>
    truthyStr (gbifFish.head?.bind (fun r => r.scientificName))).getD "Unknown"

/-- script.js lines 200-223: the fisheries aggregation performed by
`fetchFisheriesFromApi` on the OBIS `results` array and the normalized
GBIF fish records. -/
def aggregateFisheries (obisRecords : List ObisRecord)
    (gbifFish : List GbifNormRecord) : FishSummary :=
  let obisFish := obisFishOf obisRecords
  let combinedSpecies := combinedSpeciesOf obisRecords gbifFish
  let dominant := dominantSpeciesOf obisRecords gbifFish
  let obisCount := obisFish.length
  let gbifCount := gbifFish.length
  let totalCount := obisCount + gbifCount
  { predictedCatchIndex := min 95 (max 20 ((totalCount : ℤ) * 2 + 20))
    dominantSpecies := dominant
    habitatSuitability := min 98 (40 + jsRound ((totalCount : ℚ) * (8/10)))
    advisories :=
      if totalCount > 10 then "Conditions favorable for small-scale fishing"
      else "Survey area recommended"
    totalFishOccurrences := obisCount
    totalFishOccurrencesGbif := gbifCount
    totalFishOccurrencesCombined := totalCount
    sampleSpecies := combinedSpecies.take 5
    fishOccurrences := obisFish.take 20
    fishOccurrencesGbif := gbifFish.take 20 }

/-! ## Fetchers (script.js lines 71-241)

A network `fetch` either rejects (modelled `Except.error`) or resolves
with a response carrying its `ok` flag and an already-parsed JSON body.
Each fetcher takes the outcome of its own network request as an
explicit argument. -/

structure HttpResp (β : Type) where
  ok : Bool
  body : β
deriving DecidableEq

/-- The outcome of one network request. -/
abbrev NetOutcome (β : Type) := Except String (HttpResp β)

/-- The parsed OBIS response: `results` is `some` when the payload has a
`results` array (`Array.isArray(json?.results)`), `none` otherwise. -/
structure ObisJson where
  results : Option (List ObisRecord)
deriving DecidableEq

/-- The parsed GBIF response, likewise. -/
structure GbifJson where
  results : Option (List GbifRawRecord)
deriving DecidableEq

/-- script.js lines 113-133: `fetchObisOccurrences` — no try/catch; a
rejected `fetch` propagates, and a non-ok status throws
`"OBIS response not ok"`. -/
def fetchObisOccurrences (latitude longitude : ℚ) (size : ℕ)
    (net : NetOutcome ObisJson) : Except String ObisJson := do
  let r ← net
  if r.ok then pure r.body else Except.error "OBIS response not ok"

/-- script.js lines 137-157: the body of `fetchGbifFishOccurrences`
before its catch — throws on rejection or non-ok status, otherwise
normalizes the `results` array (absent array defaults to `[]`). -/
def fetchGbifBody (latitude longitude : ℚ) (limit : ℕ)
    (net : NetOutcome GbifJson) : Except String (List GbifNormRecord) := do
  let r ← net
  if r.ok then pure ((r.body.results.getD []).map gbifNormalizeRecord)
  else Except.error "GBIF response not ok"

/-- script.js lines 136-162: `fetchGbifFishOccurrences` — its whole body
is wrapped in try/catch and any failure degrades to the empty list. -/
def fetchGbifFishOccurrences (latitude longitude : ℚ) (limit : ℕ)
    (net : NetOutcome GbifJson) : List GbifNormRecord :=
  match fetchGbifBody latitude longitude limit net with
  | .ok l => l
  | .error _ => []

/-- The raw `hourly` object of the marine-weather payload; each metric is
`some` when present (an array), `none` otherwise. -/
structure OceanHourlyRaw where
  time : Option (List String)
  sea_surface_temperature : Option (List ℚ)
  wave_height : Option (List ℚ)
  wave_direction : Option (List ℚ)
  wave_period : Option (List ℚ)
  swell_wave_height : Option (List ℚ)
  swell_wave_direction : Option (List ℚ)
  swell_wave_period : Option (List ℚ)
  wind_wave_height : Option (List ℚ)
  wind_wave_direction : Option (List ℚ)
  wind_wave_period : Option (List ℚ)
deriving DecidableEq

/-- The parsed marine-weather payload; units are an opaque string map. -/
structure OceanJson where
  hourly : Option OceanHourlyRaw
  hourly_units : Option (List (String × String))
deriving DecidableEq

/-- The normalized hourly arrays returned on success (script.js lines 91-106). -/
structure OceanHourly where
  time : List String
  sea_surface_temperature : List ℚ
  wave_height : List ℚ
  wave_direction : List ℚ
  wave_period : List ℚ
  swell_wave_height : List ℚ
  swell_wave_direction : List ℚ
  swell_wave_period : List ℚ
  wind_wave_height : List ℚ
  wind_wave_direction : List ℚ
  wind_wave_period : List ℚ
deriving DecidableEq

structure OceanSummary where
  hourly : OceanHourly
  units : List (String × String)
deriving DecidableEq

/-- script.js lines 72-106: the body of `fetchOceanographicFromApi`
before its catch. -/
def fetchOceanographicBody (latitude longitude : ℚ)
    (net : NetOutcome OceanJson) : Except String OceanSummary := do
  let r ← net
  if r.ok then
    let json := r.body
    let times := (json.hourly.bind (fun h => h.time)).getD []
    pure
      { hourly :=
          { time := times.map (fun t => t ++ "Z")
            sea_surface_temperature := (json.hourly.bind (fun h => h.sea_surface_temperature)).getD []
            wave_height := (json.hourly.bind (fun h => h.wave_height)).getD []
            wave_direction := (json.hourly.bind (fun h => h.wave_direction)).getD []
            wave_period := (json.hourly.bind (fun h => h.wave_period)).getD []
            swell_wave_height := (json.hourly.bind (fun h => h.swell_wave_height)).getD []
            swell_wave_direction := (json.hourly.bind (fun h => h.swell_wave_direction)).getD []
            swell_wave_period := (json.hourly.bind (fun h => h.swell_wave_period)).getD []
            wind_wave_height := (json.hourly.bind (fun h => h.wind_wave_height)).getD []
            wind_wave_direction := (json.hourly.bind (fun h => h.wind_wave_direction)).getD []
            wind_wave_period := (json.hourly.bind (fun h => h.wind_wave_period)).getD [] }
        units := json.hourly_units.getD [] }
  else Except.error "Open-Meteo response not ok"

/-- script.js lines 71-111: `fetchOceanographicFromApi` — the whole body
is wrapped in try/catch, returning `null` on any failure. -/
def fetchOceanographicFromApi (latitude longitude : ℚ)
    (net : NetOutcome OceanJson) : Option OceanSummary :=
  (fetchOceanographicBody latitude longitude net).toOption

/-- script.js lines 164-192: `fetchBiodiversityFromApi` — fetches OBIS
occurrences (size 100), aggregates, returns `null` on any failure. -/
def fetchBiodiversityFromApi (latitude longitude : ℚ)
    (net : NetOutcome ObisJson) : Option BioSummary :=
  match fetchObisOccurrences latitude longitude 100 net with
  | .ok json => some (aggregateBiodiversity (json.results.getD []))
  | .error _ => none

/-- script.js lines 194-228: `fetchFisheriesFromApi` — awaits the OBIS
and GBIF fetches jointly (`Promise.all`; only the OBIS one can reject,
which the surrounding try/catch turns into `null`), aggregates otherwise. -/
def fetchFisheriesFromApi (latitude longitude : ℚ)
    (netObis : NetOutcome ObisJson) (netGbif : NetOutcome GbifJson) :
    Option FishSummary :=
  match fetchObisOccurrences latitude longitude 100 netObis with
  | .ok obisJson =>
    some (aggregateFisheries (obisJson.results.getD [])
      (fetchGbifFishOccurrences latitude longitude 100 netGbif))
  | .error _ => none

/-- The JavaScript `x || {}` applied to each domain result: either the
summary of the fetcher or the empty object. -/
inductive OrEmptyObj (α : Type) where
  | val (a : α)
  | emptyObj
deriving DecidableEq

def orEmptyObj {α : Type} : Option α → OrEmptyObj α
  | some a => .val a
  | none => .emptyObj

structure LiveOrMockResult where
  oceanographic : OrEmptyObj OceanSummary
  fisheries : OrEmptyObj FishSummary
  molecular : OrEmptyObj BioSummary
deriving DecidableEq

/-- Model of `Promise.all` over three already-settled outcomes: resolves with the
triple when all resolve, rejects when any rejects. -/
def promiseAll3 {ε α β γ : Type} (a : Except ε α) (b : Except ε β) (c : Except ε γ) :
    Except ε (α × β × γ) := do
  let x ← a
  let y ← b
  let z ← c
  pure (x, y, z)

/-- script.js lines 230-241: `getLiveOrMockData` — awaits all three
domain fetchers via `Promise.all` and substitutes `{}` for a `null`
result.  Each of the three fetcher promises always resolves (their
bodies are fully wrapped in try/catch), hence the `Except.ok` wrappers. -/
def getLiveOrMockData (latitude longitude : ℚ)
    (netOcean : NetOutcome OceanJson) (netObisFish : NetOutcome ObisJson)
    (netGbif : NetOutcome GbifJson) (netObisBio : NetOutcome ObisJson) :
    Except String LiveOrMockResult := do
  let (oceanApi, fishApi, molApi) ← promiseAll3
    (Except.ok (fetchOceanographicFromApi latitude longitude netOcean))
    (Except.ok (fetchFisheriesFromApi latitude longitude netObisFish netGbif))
    (Except.ok (fetchBiodiversityFromApi latitude longitude netObisBio))
  pure
    { oceanographic := orEmptyObj oceanApi
      fisheries := orEmptyObj fishApi
      molecular := orEmptyObj molApi }

/-! ## Specification-side definitions

These follow the wording of the specification (not the code); the claim
theorems relate them to the code-derived definitions above. -/

/-- The truthy values of one optional field across a record list. -/
def namesOfField (field : ObisRecord → Option String) (records : List ObisRecord) :
    List String :=
  records.filterMap (fun r => truthyStr (field r))

/-- Specification side: "the number of unique scientific names" of an
occurrence list, as the cardinality of the set of truthy names. -/
def specUniqueTaxaCount (records : List ObisRecord) : ℕ :=
  (namesOfField (fun r => r.scientificName) records).toFinset.card

/-- Specification side, claim C5: "top-3 families (or genera) ordered by
descending occurrence count, ties ordered by first-encountered position,
each formatted with its count" — pair each distinct name, in
first-encountered order, with its occurrence count; stable-sort by count
descending; keep three; format as `name (count)`. -/
def specFieldTop3 (field : ObisRecord → Option String) (records : List ObisRecord) :
    List String :=
  let names := namesOfField field records
  let entries := (dedupFirst names).map (fun k => (k, names.count k))
  ((sortByCountDesc entries).take 3).map (fun p => p.1 ++ " (" ++ toString p.2 ++ ")")

/-- Specification side, claim C5 as amended: the counts-object entries
(distinct names in first-encountered order, each with its occurrence
count) are enumerated with array-index names first in ascending numeric
order and the remaining names in first-encountered order, then stably
sorted by count descending, sliced to three, formatted. -/
def specFieldTop3Amended (field : ObisRecord → Option String)
    (records : List ObisRecord) : List String :=
  let names := namesOfField field records
  let entries := (dedupFirst names).map (fun k => (k, names.count k))
  ((sortByCountDesc (objectEntries entries)).take 3).map
    (fun p => p.1 ++ " (" ++ toString p.2 ++ ")")

/-- Claim C5 counterexample input: two families with equal counts, the
second an array-index string, so enumeration puts it first. -/
def c5CounterRecords : List ObisRecord :=
  [⟨none, some "Abc", none, none, none, none⟩,
    ⟨none, some "3", none, none, none, none⟩]

/-- Specification side, claim C8: "the duplicate-free union ordered with
source-A unique fish names first and then source-B names not already
present". -/
def specCombinedUnion (obisRecords : List ObisRecord)
    (gbifFish : List GbifNormRecord) : List String :=
  let aNames := (obisFishOf obisRecords).filterMap (fun r => truthyStr r.scientificName)
  let bNames := gbifFish.filterMap (fun r => truthyStr r.scientificName)
  dedupFirst aNames ++ (dedupFirst bNames).filter (fun x => x ∉ aNames)

/-- Claim C4 failing input: a GBIF record carrying a direct
`eventDate` but no `year`/`month`/`day` fields. -/
def c4FailingRecord : GbifRawRecord :=
  { scientificName := some "Thunnus albacares"
    species := none
    genericName := none
    taxonScientificName := none
    eventDate := some "2020-05-01"
    year := none
    month := none
    day := none
    depth := none
    minimumDepthInMeters := none
    decimalDepth := none }

/-! ## Helper lemmas -/

theorem mem_dedupFirst (a : String) (l : List String) : a ∈ dedupFirst l ↔ a ∈ l := by
  induction l using dedupFirst.induct with
  | case1 => simp [dedupFirst]
  | case2 x xs ih =>
    rw [dedupFirst]
    by_cases hax : a = x
    · subst hax; simp
    · rw [List.mem_cons, ih, List.mem_filter]
      simp [hax]

theorem dedupFirst_length (l : List String) : (dedupFirst l).length = l.toFinset.card := by
  induction l using dedupFirst.induct with
  | case1 => simp [dedupFirst]
  | case2 x xs ih =>
    rw [dedupFirst]
    simp only [List.length_cons, ih, List.toFinset_filter, List.toFinset_cons]
    have h1 : (xs.toFinset.filter (fun a => (decide (a ≠ x)) = true)) = xs.toFinset.erase x := by
      rw [← Finset.filter_ne' xs.toFinset x]
      apply Finset.filter_congr
      intro y _
      simp
    rw [h1]
    by_cases hx : x ∈ xs.toFinset
    · rw [Finset.insert_eq_self.2 hx, Finset.card_erase_of_mem hx]
      have := Finset.card_pos.2 ⟨x, hx⟩
      omega
    · rw [Finset.card_insert_of_not_mem hx, Finset.erase_eq_of_not_mem hx]

theorem dedupFirst_filter (p : String → Bool) (l : List String) :
    dedupFirst (l.filter p) = (dedupFirst l).filter p := by
  induction l using dedupFirst.induct with
  | case1 => simp [dedupFirst]
  | case2 x xs ih =>
    by_cases hp : p x
    · rw [List.filter_cons_of_pos hp, dedupFirst, dedupFirst, List.filter_cons_of_pos hp]
      congr 1
      rw [← ih, List.filter_filter, List.filter_filter]
      congr 1
      apply List.filter_congr
      intro y _
      exact Bool.and_comm _ _
    · rw [List.filter_cons_of_neg (by simpa using hp), dedupFirst,
        List.filter_cons_of_neg (by simpa using hp), ← ih, List.filter_filter]
      congr 1
      apply List.filter_congr
      intro y _
      by_cases hyx : y = x
      · subst hyx
        simp [hp]
      · simp [hyx]

theorem dedupFirst_append (a b : List String) :
    dedupFirst (a ++ b) =
      dedupFirst a ++ (dedupFirst b).filter (fun y => y ∉ a) := by
  induction a using dedupFirst.induct generalizing b with
  | case1 => simp [dedupFirst]
  | case2 x xs ih =>
    rw [List.cons_append, dedupFirst, List.filter_append, ih,
      dedupFirst_filter (fun y => y ≠ x) b]
    rw [dedupFirst, List.cons_append]
    congr 1
    rw [List.filter_filter]
    congr 1
    apply List.filter_congr
    intro y hy
    by_cases hyx : y = x
    · subst hyx
      simp
    · simp [hyx, List.mem_filter]

theorem bump_of_not_mem (m : List (String × ℕ)) (k : String)
    (h : k ∉ m.map Prod.fst) : bump m k = m ++ [(k, 1)] := by
  induction m with
  | nil => rfl
  | cons p rest ih =>
    obtain ⟨k', c⟩ := p
    simp only [List.map_cons, List.mem_cons] at h
    push_neg at h
    rw [bump, if_neg (fun hh => h.1 hh.symm), ih h.2, List.cons_append]

theorem keys_bump_of_mem (m : List (String × ℕ)) (k : String)
    (h : k ∈ m.map Prod.fst) : (bump m k).map Prod.fst = m.map Prod.fst := by
  induction m with
  | nil => simp at h
  | cons p rest ih =>
    obtain ⟨k', c⟩ := p
    by_cases hk : k' = k
    · rw [bump, if_pos hk]
      simp
    · rw [bump, if_neg hk]
      simp only [List.map_cons, List.mem_cons] at h ⊢
      rcases h with h | h
      · exact absurd h.symm hk
      · rw [ih h]

theorem bump_map_count (m : List (String × ℕ)) (k : String) (t : List String)
    (hnd : (m.map Prod.fst).Nodup) (hmem : k ∈ m.map Prod.fst) :
    (bump m k).map (fun p => (p.1, p.2 + t.count p.1)) =
      m.map (fun p => (p.1, p.2 + (k :: t).count p.1)) := by
  induction m with
  | nil => simp at hmem
  | cons p rest ih =>
    obtain ⟨k', c⟩ := p
    simp only [List.map_cons, List.nodup_cons] at hnd
    by_cases hk : k' = k
    · subst hk
      rw [bump, if_pos rfl]
      simp only [List.map_cons]
      congr 1
      · simp [List.count_cons_self]
        omega
      · apply List.map_congr_left
        intro q hq
        have hqk : q.1 ≠ k' := by
          intro he
          exact hnd.1 (he ▸ List.mem_map_of_mem Prod.fst hq)
        simp [List.count_cons_of_ne hqk]
    · rw [bump, if_neg hk]
      simp only [List.map_cons, List.mem_cons] at hmem
      rcases hmem with h | h
      · exact absurd h.symm hk
      · simp only [List.map_cons]
        congr 1
        · have : k' ≠ k := hk
          simp [List.count_cons_of_ne this]
        · exact ih hnd.2 h

theorem foldl_bump_general (l : List String) :
    ∀ (m : List (String × ℕ)), (m.map Prod.fst).Nodup →
      l.foldl bump m =
        m.map (fun p => (p.1, p.2 + l.count p.1)) ++
          (dedupFirst (l.filter (fun k => k ∉ m.map Prod.fst))).map
            (fun k => (k, l.count k)) := by
  induction l with
  | nil =>
    intro m _
    simp [dedupFirst]
  | cons k t ih =>
    intro m hnd
    rw [List.foldl_cons]
    by_cases hmem : k ∈ m.map Prod.fst
    · rw [ih (bump m k) (by rw [keys_bump_of_mem m k hmem]; exact hnd)]
      rw [keys_bump_of_mem m k hmem]
      congr 1
      · exact bump_map_count m k t hnd hmem
      · rw [List.filter_cons_of_neg (by simpa using hmem)]
        apply List.map_congr_left
        intro y hy
        rw [mem_dedupFirst, List.mem_filter] at hy
        have hyk : y ≠ k := by
          intro he
          have h2 : ¬ y ∈ m.map Prod.fst := by simpa using hy.2
          exact h2 (he ▸ hmem)
        rw [List.count_cons_of_ne hyk]
    · rw [bump_of_not_mem m k hmem]
      have hnd2 : ((m ++ [(k, 1)]).map Prod.fst).Nodup := by
        simp only [List.map_append, List.map_cons, List.map_nil]
        rw [List.nodup_append]
        refine ⟨hnd, List.nodup_singleton k, ?_⟩
        intro a ha hb
        simp only [List.mem_singleton] at hb
        subst hb
        exact hmem ha
      rw [ih _ hnd2]
      rw [List.filter_cons_of_pos (by simpa using hmem), dedupFirst]
      simp only [List.map_append, List.map_cons, List.map_nil, List.append_assoc,
        List.singleton_append]
      congr 1
      · apply List.map_congr_left
        intro q hq
        have hqk : q.1 ≠ k := fun he => hmem (he ▸ List.mem_map_of_mem Prod.fst hq)
        rw [List.count_cons_of_ne hqk]
      · congr 1
        · rw [List.count_cons_self, Nat.add_comm]
        · rw [List.filter_filter]
          have hfe : (t.filter fun a => decide (a ∉ (m.map Prod.fst) ++ [k])) =
              (t.filter fun y => decide (y ≠ k) && decide (y ∉ m.map Prod.fst)) := by
            apply List.filter_congr
            intro y _
            by_cases hyk : y = k
            · simp [hyk]
            · simp [hyk]
          rw [hfe]
          apply List.map_congr_left
          intro y hy
          rw [mem_dedupFirst, List.mem_filter] at hy
          have hyk : y ≠ k := by
            have h2 := hy.2
            simp only [Bool.and_eq_true, decide_eq_true_eq] at h2
            exact h2.1
          rw [List.count_cons_of_ne hyk]

theorem foldl_bump_nil (l : List String) :
    l.foldl bump [] = (dedupFirst l).map (fun k => (k, l.count k)) := by
  rw [foldl_bump_general l [] (by simp)]
  simp

theorem mem_insertStableDesc (x p : String × ℕ) (l : List (String × ℕ)) :
    x ∈ insertStableDesc p l ↔ x = p ∨ x ∈ l := by
  induction l with
  | nil => simp [insertStableDesc]
  | cons q qs ih =>
    rw [insertStableDesc]
    by_cases h : p.2 ≤ q.2
    · rw [if_pos h]
      simp only [List.mem_cons, ih]
      tauto
    · rw [if_neg h]
      simp only [List.mem_cons]

theorem sorted_insertStableDesc (p : String × ℕ) (l : List (String × ℕ))
    (hs : List.Sorted (fun a b : String × ℕ => b.2 ≤ a.2) l) :
    List.Sorted (fun a b : String × ℕ => b.2 ≤ a.2) (insertStableDesc p l) := by
  induction l with
  | nil => simp [insertStableDesc]
  | cons q qs ih =>
    rw [List.sorted_cons] at hs
    rw [insertStableDesc]
    by_cases h : p.2 ≤ q.2
    · rw [if_pos h, List.sorted_cons]
      refine ⟨?_, ih hs.2⟩
      intro b hb
      rw [mem_insertStableDesc] at hb
      rcases hb with hb | hb
      · subst hb
        exact h
      · exact hs.1 b hb
    · rw [if_neg h, List.sorted_cons]
      refine ⟨?_, List.sorted_cons.2 hs⟩
      intro b hb
      rcases List.mem_cons.1 hb with hb | hb
      · subst hb
        omega
      · have := hs.1 b hb
        omega

theorem sorted_sortByCountDesc (l : List (String × ℕ)) :
    List.Sorted (fun a b : String × ℕ => b.2 ≤ a.2) (sortByCountDesc l) := by
  rw [sortByCountDesc]
  have h : ∀ (acc : List (String × ℕ)),
      List.Sorted (fun a b : String × ℕ => b.2 ≤ a.2) acc →
      List.Sorted (fun a b : String × ℕ => b.2 ≤ a.2)
        (l.foldl (fun acc p => insertStableDesc p acc) acc) := by
    induction l with
    | nil => intro acc hacc; simpa using hacc
    | cons p t ih =>
      intro acc hacc
      rw [List.foldl_cons]
      exact ih _ (sorted_insertStableDesc p acc hacc)
  exact h [] (by simp)

theorem foldl_step_filterMap (field : ObisRecord → Option String) :
    ∀ (records : List ObisRecord) (m : List (String × ℕ)),
      records.foldl
        (fun m r =>
          match truthyStr (field r) with
          | some k => bump m k
          | none => m) m =
        (records.filterMap (fun r => truthyStr (field r))).foldl bump m := by
  intro records
  induction records with
  | nil => intro m; rfl
  | cons r t ih =>
    intro m
    rw [List.foldl_cons, List.filterMap_cons]
    cases h : truthyStr (field r) with
    | none =>
      simp only [h]
      exact ih m
    | some k =>
      simp only [h]
      rw [List.foldl_cons]
      exact ih (bump m k)

theorem fieldCounts_eq (field : ObisRecord → Option String) (records : List ObisRecord) :
    fieldCounts field records =
      (dedupFirst (namesOfField field records)).map
        (fun k => (k, (namesOfField field records).count k)) := by
  rw [fieldCounts, foldl_step_filterMap field records, namesOfField, foldl_bump_nil]

/-! ## Claim theorems -/

/-- Claim C10: the display helper returns the placeholder "-" exactly
when its value argument is null, undefined, the empty string, or an
empty array; every other value, including the number 0, is rendered as
the value followed by the suffix (so a zero metric displays "0", never
the placeholder). -/
theorem c10_display_placeholder (v : JsVal) (suffix : String) :
    (isEmptyish v = true ↔
      (v = .vnull ∨ v = .vundef ∨ v = .vstr "" ∨ v = .varr [])) ∧
    (isEmptyish v = true → display v suffix = "-") ∧
    (isEmptyish v = false → display v suffix = jsToString v ++ suffix) ∧
    (∀ n : Int, display (.vnum n) suffix = toString n ++ suffix) ∧
    display (.vnum 0) suffix = "0" ++ suffix ∧
    display (.vnum 0) suffix ≠ "-" := by
  refine ⟨?_, ?_, ?_, ?_, ?_, ?_⟩
  · cases v <;> simp [isEmptyish]
  · intro h
    simp [display, h]
  · intro h
    simp [display, h]
  · intro n
    simp [display, isEmptyish, jsToString]
  · have hz : toString (0 : Int) = "0" := rfl
    simp [display, isEmptyish, jsToString, hz]
  · intro h
    have hz : toString (0 : Int) = "0" := rfl
    have h0 : display (.vnum 0) suffix = "0" ++ suffix := by
      simp [display, isEmptyish, jsToString, hz]
    rw [h0] at h
    have hd : ("0" ++ suffix).data = ("-" : String).data := congrArg String.data h
    rw [String.data_append] at hd
    have : '0' :: suffix.data = ['-'] := hd
    simp at this

/-- Claim C10 witness: concrete evaluations discharging the hypotheses of
`c10_display_placeholder` at the empty string and at the number 0. -/
theorem c10_display_placeholder_witness :
    display (.vstr "") "%" = "-" ∧ display (.vnum 0) "%" = "0" ++ "%" :=
  ⟨(c10_display_placeholder (.vstr "") "%").2.1 (by decide),
    (c10_display_placeholder (.vnum 0) "%").2.2.2.2.1⟩

/-- Rationale lemma for claim C3: a clamped value lies in its range. -/
theorem clamp_bounds (v lo hi : ℚ) (h : lo ≤ hi) :
    lo ≤ clamp v lo hi ∧ clamp v lo hi ≤ hi :=
  ⟨le_max_left _ _, max_le h (min_le_left _ _)⟩

/-- Claim C3: `normalizeCoordsMaybeSwap` always returns a Coordinate with
latitude in [-90,90] and longitude in [-180,180]; when lat is outside
[-90,90] while lon is inside [-180,180] it returns the swapped pair
clamped axis-wise, otherwise the pair clamped axis-wise (and, being a
total function, it raises no exception). -/
theorem c3_normalize_spec (lat lon : ℚ) :
    (-90 ≤ (normalizeCoordsMaybeSwap lat lon).latitude ∧
      (normalizeCoordsMaybeSwap lat lon).latitude ≤ 90 ∧
      -180 ≤ (normalizeCoordsMaybeSwap lat lon).longitude ∧
      (normalizeCoordsMaybeSwap lat lon).longitude ≤ 180) ∧
    ((lat < -90 ∨ 90 < lat) → -180 ≤ lon → lon ≤ 180 →
      normalizeCoordsMaybeSwap lat lon =
        ⟨clamp lon (-90) 90, clamp lat (-180) 180⟩) ∧
    (¬ ((lat < -90 ∨ 90 < lat) ∧ -180 ≤ lon ∧ lon ≤ 180) →
      normalizeCoordsMaybeSwap lat lon =
        ⟨clamp lat (-90) 90, clamp lon (-180) 180⟩) := by
  have hlat := clamp_bounds lat (-90) 90 (by norm_num)
  have hlat2 := clamp_bounds lat (-180) 180 (by norm_num)
  have hlon := clamp_bounds lon (-90) 90 (by norm_num)
  have hlon2 := clamp_bounds lon (-180) 180 (by norm_num)
  refine ⟨?_, ?_, ?_⟩
  · rw [normalizeCoordsMaybeSwap]
    by_cases hf : (lat < -90 ∨ lat > 90) ∧ lon ≥ -180 ∧ lon ≤ 180
    · rw [if_pos hf]
      exact ⟨hlon.1, hlon.2, hlat2.1, hlat2.2⟩
    · rw [if_neg hf]
      exact ⟨hlat.1, hlat.2, hlon2.1, hlon2.2⟩
  · intro h1 h2 h3
    rw [normalizeCoordsMaybeSwap]
    rw [if_pos ⟨h1, h2, h3⟩]
  · intro h
    rw [normalizeCoordsMaybeSwap]
    rw [if_neg h]

/-- Claim C3 witness: the example given in the spec — input (200, 10) is treated
as swapped and yields latitude 10, longitude 180. -/
theorem c3_normalize_spec_witness :
    normalizeCoordsMaybeSwap 200 10 = ⟨clamp 10 (-90) 90, clamp 200 (-180) 180⟩ ∧
    normalizeCoordsMaybeSwap 200 10 = ⟨10, 180⟩ :=
  ⟨(c3_normalize_spec 200 10).2.1 (Or.inr (by norm_num)) (by norm_num) (by norm_num),
    by decide⟩

/-- Claim C9: the mock data generator is deterministic — for any fixed
interpretation of `Math.sin`, two calls with identical latitude and
longitude return structurally identical outputs (the embedding takes no
other input, so the output depends on nothing else). -/
theorem c9_getMockData_deterministic (mathSin : ℚ → ℚ) (lat lon lat2 lon2 : ℚ)
    (h1 : lat = lat2) (h2 : lon = lon2) :
    getMockData mathSin lat lon = getMockData mathSin lat2 lon2 := by
  subst h1
  subst h2
  rfl

/-- Claim C9 witness: determinism instantiated at a concrete coordinate
and a concrete interpretation of `Math.sin`. -/
theorem c9_getMockData_deterministic_witness :
    getMockData (fun _ => 1/2) 10 20 = getMockData (fun _ => 1/2) 10 20 :=
  c9_getMockData_deterministic (fun _ => 1/2) 10 20 10 20 rfl rfl

/-- Claim C4 (code bug): on a GBIF record that carries a direct
`eventDate` of "2020-05-01" but no year/month/day fields, the normalized
event date is "-00-00" (composed from the absent year/month/day fields)
rather than the direct date: in
`r.eventDate || r.day || r.month || r.year ? tpl : undefined` the
disjunction is the ternary condition, so the direct date is never used. -/
theorem c4_gbif_eventDate_bug :
    c4FailingRecord.eventDate = some "2020-05-01" ∧
    (gbifNormalizeRecord c4FailingRecord).eventDate = some "-00-00" ∧
    (gbifNormalizeRecord c4FailingRecord).eventDate ≠ c4FailingRecord.eventDate := by
  refine ⟨rfl, ?_, ?_⟩ <;> decide

/-- Evaluation of the 2-decimal formatting at 0. -/
theorem toFixedQ_two_zero : toFixedQ 2 0 = "0.00" := by
  have h1 : ⌊|(0 : ℚ)| * (10 : ℚ) ^ 2 + 1/2⌋ = 0 := by norm_num
  simp only [toFixedQ, h1]
  decide

/-- Claim C1: biodiversity aggregation returns a taxa-detected count
equal to the number of unique scientific names, a diversity index equal
to min(uniqueCount/100, 0.95) rounded to 2 decimals ("0.00" at zero
taxa), and invasive risk "Moderate" exactly when the unique-taxa count
exceeds 50, "Low" otherwise (so "Low" at exactly 50). -/
theorem c1_biodiversity_spec (records : List ObisRecord) (u : ℕ)
    (hu : u = specUniqueTaxaCount records) :
    (aggregateBiodiversity records).potentialTaxaDetected = u ∧
    (aggregateBiodiversity records).eDnaDiversityIndex =
      toFixedQ 2 (min ((u : ℚ) / 100) (19/20)) ∧
    (u = 0 → (aggregateBiodiversity records).eDnaDiversityIndex = "0.00") ∧
    ((aggregateBiodiversity records).invasiveRisk = "Moderate" ↔ 50 < u) ∧
    (u ≤ 50 → (aggregateBiodiversity records).invasiveRisk = "Low") := by
  have hlen : (dedupFirst (records.filterMap (fun r => truthyStr r.scientificName))).length
      = u := by
    rw [hu, specUniqueTaxaCount, namesOfField]
    exact dedupFirst_length _
  have hT : (aggregateBiodiversity records).potentialTaxaDetected =
      (dedupFirst (records.filterMap (fun r => truthyStr r.scientificName))).length := rfl
  have hE : (aggregateBiodiversity records).eDnaDiversityIndex =
      (if (dedupFirst (records.filterMap (fun r => truthyStr r.scientificName))).length > 0
        then toFixedQ 2 (min
          (((dedupFirst (records.filterMap (fun r => truthyStr r.scientificName))).length : ℚ) / 100)
          (19/20))
        else "0.00") := rfl
  have hR : (aggregateBiodiversity records).invasiveRisk =
      (if (dedupFirst (records.filterMap (fun r => truthyStr r.scientificName))).length > 50
        then "Moderate" else "Low") := rfl
  rw [hlen] at hT hE hR
  refine ⟨hT, ?_, ?_, ?_, ?_⟩
  · rw [hE]
    by_cases h0 : u = 0
    · subst h0
      rw [if_neg (by norm_num)]
      have hm : min (((0 : ℕ) : ℚ) / 100) (19/20) = 0 := by norm_num
      rw [hm, toFixedQ_two_zero]
    · rw [if_pos (Nat.pos_of_ne_zero h0)]
  · intro h0
    rw [hE, h0]
    norm_num
  · rw [hR]
    by_cases h : 50 < u
    · simp [h]
    · simp [h]
  · intro h
    rw [hR, if_neg (by omega)]

/-- Claim C1 witness: the empty occurrence list has unique-taxa count 0,
diversity index "0.00", taxa count 0, and risk "Low". -/
theorem c1_biodiversity_spec_witness :
    (aggregateBiodiversity []).potentialTaxaDetected = 0 ∧
    (aggregateBiodiversity []).eDnaDiversityIndex = "0.00" ∧
    (aggregateBiodiversity []).invasiveRisk = "Low" := by
  obtain ⟨h1, _, h3, _, h5⟩ := c1_biodiversity_spec [] 0 (by decide)
  exact ⟨h1, h3 rfl, h5 (by decide)⟩

/-- Claim C2: on combined fish occurrence count n, fisheries aggregation
returns a predicted catch index of 2n+20 clamped into [20,95] (20 at
n = 0, 95 for n ≥ 38), a habitat-suitability score of 40 + round(0.8n)
clamped to at most 98 (40 at n = 0), and the favorable-conditions
advisory exactly when n > 10, else the survey-recommended advisory. -/
theorem c2_fisheries_indices (obisRecords : List ObisRecord)
    (gbifFish : List GbifNormRecord) (n : ℕ)
    (hn : n = (obisFishOf obisRecords).length + gbifFish.length) :
    (aggregateFisheries obisRecords gbifFish).predictedCatchIndex =
      max 20 (min 95 (2 * (n : ℤ) + 20)) ∧
    (n = 0 → (aggregateFisheries obisRecords gbifFish).predictedCatchIndex = 20) ∧
    (38 ≤ n → (aggregateFisheries obisRecords gbifFish).predictedCatchIndex = 95) ∧
    (aggregateFisheries obisRecords gbifFish).habitatSuitability =
      min 98 (40 + jsRound ((n : ℚ) * (8/10))) ∧
    (n = 0 → (aggregateFisheries obisRecords gbifFish).habitatSuitability = 40) ∧
    ((aggregateFisheries obisRecords gbifFish).advisories =
        "Conditions favorable for small-scale fishing" ↔ 10 < n) ∧
    ((aggregateFisheries obisRecords gbifFish).advisories =
        "Survey area recommended" ↔ n ≤ 10) := by
  have hp : (aggregateFisheries obisRecords gbifFish).predictedCatchIndex =
      min 95 (max 20
        ((((obisFishOf obisRecords).length + gbifFish.length : ℕ) : ℤ) * 2 + 20)) := rfl
  have hh : (aggregateFisheries obisRecords gbifFish).habitatSuitability =
      min 98 (40 + jsRound
        ((((obisFishOf obisRecords).length + gbifFish.length : ℕ) : ℚ) * (8/10))) := rfl
  have ha : (aggregateFisheries obisRecords gbifFish).advisories =
      (if (obisFishOf obisRecords).length + gbifFish.length > 10
        then "Conditions favorable for small-scale fishing"
        else "Survey area recommended") := rfl
  rw [← hn] at hp hh ha
  refine ⟨?_, ?_, ?_, ?_, ?_, ?_, ?_⟩
  · rw [hp]
    omega
  · intro h0
    rw [hp, h0]
    norm_num
  · intro h38
    rw [hp]
    omega
  · rw [hh]
  · intro h0
    rw [hh, h0]
    have hz : jsRound (((0 : ℕ) : ℚ) * (8/10)) = 0 := by norm_num [jsRound]
    rw [hz]
    norm_num
  · have hne : ("Survey area recommended" : String) ≠
        "Conditions favorable for small-scale fishing" := by decide
    rw [ha]
    by_cases h : 10 < n
    · simp [h]
    · simp [h, hne]
  · have hne : ("Conditions favorable for small-scale fishing" : String) ≠
        "Survey area recommended" := by decide
    rw [ha]
    by_cases h : 10 < n
    · simp [h, hne]
    · simp [h]
      omega

/-- Claim C2 witness: at combined count 0 the indices are 20 and 40; at
a count of 40 (one OBIS fish record list of length 0 and 40 GBIF
records) the predicted catch index is clamped to 95. -/
theorem c2_fisheries_indices_witness :
    (aggregateFisheries [] []).predictedCatchIndex = 20 ∧
    (aggregateFisheries [] []).habitatSuitability = 40 ∧
    (aggregateFisheries []
      (List.replicate 40 ⟨none, none, none⟩)).predictedCatchIndex = 95 := by
  obtain ⟨_, h2, _, _, h5, _, _⟩ := c2_fisheries_indices [] [] 0 (by decide)
  obtain ⟨_, _, h3, _, _, _, _⟩ := c2_fisheries_indices []
    (List.replicate 40 ⟨none, none, none⟩) 40 (by simp [obisFishOf])
  exact ⟨h2 rfl, h5 rfl, h3 (by norm_num)⟩

/-- Claim C7: on a network failure (rejected fetch) or a non-success
status, the OBIS occurrence fetch propagates the failure to its caller
as a thrown condition, while under the same failures the GBIF occurrence
fetch returns the empty list without propagating any exception. -/
theorem c7_error_propagation_asymmetry (latitude longitude : ℚ) (size limit : ℕ)
    (e : String) (r : HttpResp ObisJson) (g : HttpResp GbifJson) :
    fetchObisOccurrences latitude longitude size (.error e) = .error e ∧
    (r.ok = false →
      fetchObisOccurrences latitude longitude size (.ok r) =
        .error "OBIS response not ok") ∧
    fetchGbifFishOccurrences latitude longitude limit (.error e) = [] ∧
    (g.ok = false →
      fetchGbifFishOccurrences latitude longitude limit (.ok g) = []) := by
  refine ⟨rfl, ?_, rfl, ?_⟩
  · intro h
    show (if r.ok = true then pure r.body
      else Except.error "OBIS response not ok" : Except String ObisJson) = _
    rw [h]
    simp
  · intro h
    show (match (if g.ok = true then
        pure ((g.body.results.getD []).map gbifNormalizeRecord)
      else Except.error "GBIF response not ok" : Except String (List GbifNormRecord)) with
      | .ok l => l
      | .error _ => []) = []
    rw [h]
    simp

/-- Claim C7 witness: both failure modes evaluated at a concrete
coordinate and concrete non-ok responses. -/
theorem c7_error_propagation_asymmetry_witness :
    fetchObisOccurrences 1 2 20 (.error "net down") = .error "net down" ∧
    fetchObisOccurrences 1 2 20 (.ok ⟨false, ⟨none⟩⟩) =
      .error "OBIS response not ok" ∧
    fetchGbifFishOccurrences 1 2 100 (.error "net down") = [] ∧
    fetchGbifFishOccurrences 1 2 100 (.ok ⟨false, ⟨none⟩⟩) = [] := by
  obtain ⟨h1, h2, h3, h4⟩ :=
    c7_error_propagation_asymmetry 1 2 20 100 "net down"
      (⟨false, ⟨none⟩⟩ : HttpResp ObisJson) (⟨false, ⟨none⟩⟩ : HttpResp GbifJson)
  exact ⟨h1, h2 rfl, h3, h4 rfl⟩

/-- Claim C6: for every outcome of the underlying network requests, the
aggregate fetch resolves (never an uncaught failure), with each domain
field equal to that domain fetcher result when non-null and the empty
object otherwise; and each domain field is unaffected by the other
domains network outcomes. -/
theorem c6_aggregate_fetch_isolation (latitude longitude : ℚ)
    (netOcean : NetOutcome OceanJson) (netObisFish : NetOutcome ObisJson)
    (netGbif : NetOutcome GbifJson) (netObisBio : NetOutcome ObisJson) :
    getLiveOrMockData latitude longitude netOcean netObisFish netGbif netObisBio =
      .ok
        { oceanographic := orEmptyObj (fetchOceanographicFromApi latitude longitude netOcean)
          fisheries := orEmptyObj
            (fetchFisheriesFromApi latitude longitude netObisFish netGbif)
          molecular := orEmptyObj (fetchBiodiversityFromApi latitude longitude netObisBio) } ∧
    (∀ netOcean2 netObisBio2,
      (getLiveOrMockData latitude longitude netOcean2 netObisFish netGbif
          netObisBio2).map (fun x => x.fisheries) =
        (getLiveOrMockData latitude longitude netOcean netObisFish netGbif
          netObisBio).map (fun x => x.fisheries)) ∧
    (∀ netObisFish2 netGbif2 netObisBio2,
      (getLiveOrMockData latitude longitude netOcean netObisFish2 netGbif2
          netObisBio2).map (fun x => x.oceanographic) =
        (getLiveOrMockData latitude longitude netOcean netObisFish netGbif
          netObisBio).map (fun x => x.oceanographic)) ∧
    (∀ netOcean2 netObisFish2 netGbif2,
      (getLiveOrMockData latitude longitude netOcean2 netObisFish netGbif
          netObisBio).map (fun x => x.molecular) =
        (getLiveOrMockData latitude longitude netOcean netObisFish2 netGbif2
          netObisBio).map (fun x => x.molecular)) := by
  refine ⟨rfl, ?_, ?_, ?_⟩
  · intro a b
    rfl
  · intro a b c
    rfl
  · intro a b c
    rfl

theorem truthyStr_some (o : Option String) (s : String) (h : truthyStr o = some s) :
    s ≠ "" ∧ o = some s := by
  cases o with
  | none => simp [truthyStr] at h
  | some t =>
    by_cases ht : t = ""
    · simp [truthyStr, ht] at h
    · rw [truthyStr, if_neg ht] at h
      obtain rfl := Option.some.inj h
      exact ⟨ht, rfl⟩

theorem head_truthy_of_filterMap_nil {α : Type} (f : α → Option String) (l : List α)
    (h : l.filterMap (fun r => truthyStr (f r)) = []) :
    truthyStr (l.head?.bind f) = none := by
  cases l with
  | nil => rfl
  | cons r t =>
    rw [List.filterMap_cons] at h
    cases hf : truthyStr (f r) with
    | none =>
      show truthyStr (f r) = none
      exact hf
    | some v =>
      rw [hf] at h
      exact absurd h (List.cons_ne_nil v _)

theorem obisFish_names_nil (obisRecords : List ObisRecord)
    (h : obisRecords.filterMap (fun r => truthyStr r.scientificName) = []) :
    (obisFishOf obisRecords).filterMap (fun r => truthyStr r.scientificName) = [] := by
  have hsub : List.Sublist
      ((obisFishOf obisRecords).filterMap (fun r => truthyStr r.scientificName))
      (obisRecords.filterMap (fun r => truthyStr r.scientificName)) :=
    (List.filter_sublist _).filterMap _
  rw [h] at hsub
  exact List.sublist_nil.mp hsub

/-- Claim C8: the combined species list is the duplicate-free union with
source-A unique fish names first, then source-B names not already
present; the dominant species is the first combined name, falling back
to the (truthy) scientific name of the first raw source-A record, then
of the first source-B record, and to "Unknown" when no record supplies
a name. -/
theorem c8_combined_species_dominant (obisRecords : List ObisRecord)
    (gbifFish : List GbifNormRecord) :
    combinedSpeciesOf obisRecords gbifFish = specCombinedUnion obisRecords gbifFish ∧
    (aggregateFisheries obisRecords gbifFish).dominantSpecies =
      dominantSpeciesOf obisRecords gbifFish ∧
    (∀ s rest, combinedSpeciesOf obisRecords gbifFish = s :: rest →
      (aggregateFisheries obisRecords gbifFish).dominantSpecies = s) ∧
    (combinedSpeciesOf obisRecords gbifFish = [] →
      ∀ name, truthyStr (obisRecords.head?.bind (fun r => r.scientificName)) = some name →
        (aggregateFisheries obisRecords gbifFish).dominantSpecies = name) ∧
    (combinedSpeciesOf obisRecords gbifFish = [] →
      truthyStr (obisRecords.head?.bind (fun r => r.scientificName)) = none →
      ∀ name, truthyStr (gbifFish.head?.bind (fun r => r.scientificName)) = some name →
        (aggregateFisheries obisRecords gbifFish).dominantSpecies = name) ∧
    (obisRecords.filterMap (fun r => truthyStr r.scientificName) = [] →
      gbifFish.filterMap (fun r => truthyStr r.scientificName) = [] →
      (aggregateFisheries obisRecords gbifFish).dominantSpecies = "Unknown") := by
  have hd : (aggregateFisheries obisRecords gbifFish).dominantSpecies =
      (truthyStr (combinedSpeciesOf obisRecords gbifFish).head? <|>
        truthyStr (obisRecords.head?.bind (fun r => r.scientificName)) <|>
        truthyStr (gbifFish.head?.bind (fun r => r.scientificName))).getD "Unknown" := rfl
  refine ⟨?_, rfl, ?_, ?_, ?_, ?_⟩
  · rw [combinedSpeciesOf, specCombinedUnion]
    exact dedupFirst_append _ _
  · intro s rest hc
    have hmem : s ∈ combinedSpeciesOf obisRecords gbifFish := by
      rw [hc]
      exact List.mem_cons_self s rest
    have hs : s ≠ "" := by
      rw [combinedSpeciesOf, mem_dedupFirst, List.mem_append] at hmem
      rcases hmem with hm | hm <;>
      · obtain ⟨r, _, hr⟩ := List.mem_filterMap.mp hm
        exact (truthyStr_some _ _ hr).1
    rw [hd, hc]
    simp [truthyStr, hs]
  · intro hc name hname
    rw [hd, hc, hname]
    rfl
  · intro hc hnone name hname
    rw [hd, hc, hnone, hname]
    rfl
  · intro hobis hgbif
    have ha : (obisFishOf obisRecords).filterMap (fun r => truthyStr r.scientificName) = [] :=
      obisFish_names_nil obisRecords hobis
    have hc : combinedSpeciesOf obisRecords gbifFish = [] := by
      rw [combinedSpeciesOf, ha, hgbif]
      simp [dedupFirst]
    rw [hd, hc, head_truthy_of_filterMap_nil _ obisRecords hobis,
      head_truthy_of_filterMap_nil _ gbifFish hgbif]
    rfl

/-- Claim C8 witness: with one non-fish OBIS record carrying no name at
position 0 and no other records, the combined list is empty and the
dominant species is "Unknown"; with a single named GBIF fish record the
combined list is that name and it is dominant. -/
theorem c8_combined_species_dominant_witness :
    (aggregateFisheries [⟨none, none, none, none, none, none⟩] []).dominantSpecies =
      "Unknown" ∧
    (aggregateFisheries [] [⟨some "Thunnus", none, none⟩]).dominantSpecies = "Thunnus" := by
  obtain ⟨_, _, _, _, _, h6⟩ :=
    c8_combined_species_dominant [⟨none, none, none, none, none, none⟩] []
  obtain ⟨_, _, h3, _, _, _⟩ :=
    c8_combined_species_dominant [] [⟨some "Thunnus", none, none⟩]
  refine ⟨h6 rfl rfl, h3 "Thunnus" [] ?_⟩
  simp [combinedSpeciesOf, obisFishOf, truthyStr, dedupFirst]

theorem objectEntries_of_no_index (m : List (String × ℕ))
    (h : ∀ p ∈ m, (arrayIndexOf p.1).isNone = true) : objectEntries m = m := by
  rw [objectEntries]
  have h1 : m.filter (fun p => (arrayIndexOf p.1).isSome) = [] := by
    rw [List.filter_eq_nil_iff]
    intro p hp
    have hn := h p hp
    simp only [Option.isNone_iff_eq_none] at hn
    simp [hn]
  have h2 : m.filter (fun p => (arrayIndexOf p.1).isNone) = m :=
    List.filter_eq_self.mpr h
  rw [h1, h2]
  rfl

/-- Claim C5 counterexample: on two equal-count families where the
second is the array-index string "3", the program enumerates "3" before
"Abc" (array indices precede insertion order in `Object.entries`), so
the top-families list is not in first-encountered tie order as the
claim states. -/
theorem c5_topk_counterexample :
    (aggregateBiodiversity c5CounterRecords).topFamilies = ["3 (1)", "Abc (1)"] ∧
    specFieldTop3 (fun r => r.family) c5CounterRecords = ["Abc (1)", "3 (1)"] ∧
    (aggregateBiodiversity c5CounterRecords).topFamilies ≠
      specFieldTop3 (fun r => r.family) c5CounterRecords := by
  have hcode : (aggregateBiodiversity c5CounterRecords).topFamilies =
      ["3 (1)", "Abc (1)"] := by decide
  have hspec : specFieldTop3 (fun r => r.family) c5CounterRecords =
      ["Abc (1)", "3 (1)"] := by
    rw [specFieldTop3]
    have hn : namesOfField (fun r => r.family) c5CounterRecords = ["Abc", "3"] := by
      decide
    rw [hn]
    have hd : dedupFirst ["Abc", "3"] = ["Abc", "3"] := by
      simp [dedupFirst]
    rw [hd]
    decide
  refine ⟨hcode, hspec, ?_⟩
  rw [hcode, hspec]
  decide

/-- Claim C5 as amended: the top-3 families and top-3 genera are ordered
by descending occurrence count, where entries with equal counts follow
the ECMAScript object key enumeration order of the counts object —
names that are canonical array-index strings first in ascending numeric
order, then the remaining names in the order first encountered in the
record list — each formatted with its count; when no name is an
array-index string, equal-count ties are in first-encountered order
exactly as originally claimed. -/
theorem c5_topk_spec_amended (records : List ObisRecord) :
    (aggregateBiodiversity records).topFamilies =
      specFieldTop3Amended (fun r => r.family) records ∧
    (aggregateBiodiversity records).topGenera =
      specFieldTop3Amended (fun r => r.genus) records ∧
    ((∀ name ∈ namesOfField (fun r => r.family) records,
        (arrayIndexOf name).isNone = true) →
      (aggregateBiodiversity records).topFamilies =
        specFieldTop3 (fun r => r.family) records) ∧
    ((∀ name ∈ namesOfField (fun r => r.genus) records,
        (arrayIndexOf name).isNone = true) →
      (aggregateBiodiversity records).topGenera =
        specFieldTop3 (fun r => r.genus) records) ∧
    List.Sorted (fun a b : String × ℕ => b.2 ≤ a.2)
      (sortByCountDesc (objectEntries (fieldCounts (fun r => r.family) records))) ∧
    List.Sorted (fun a b : String × ℕ => b.2 ≤ a.2)
      (sortByCountDesc (objectEntries (fieldCounts (fun r => r.genus) records))) := by
  have h1 : (aggregateBiodiversity records).topFamilies =
      topK (fieldCounts (fun r => r.family) records) 3 := rfl
  have h2 : (aggregateBiodiversity records).topGenera =
      topK (fieldCounts (fun r => r.genus) records) 3 := rfl
  have hno : ∀ (field : ObisRecord → Option String),
      (∀ name ∈ namesOfField field records, (arrayIndexOf name).isNone = true) →
      topK (fieldCounts field records) 3 = specFieldTop3 field records := by
    intro field hf
    rw [topK, fieldCounts_eq, specFieldTop3]
    rw [objectEntries_of_no_index]
    intro p hp
    obtain ⟨k, hk, rfl⟩ := List.mem_map.mp hp
    exact hf k ((mem_dedupFirst k _).mp hk)
  refine ⟨?_, ?_, ?_, ?_, sorted_sortByCountDesc _, sorted_sortByCountDesc _⟩
  · rw [h1, topK, fieldCounts_eq, specFieldTop3Amended]
  · rw [h2, topK, fieldCounts_eq, specFieldTop3Amended]
  · intro hf
    rw [h1]
    exact hno _ hf
  · intro hf
    rw [h2]
    exact hno _ hf

/-- Claim C5 witness for the amended theorem: a record list whose family
names are not array-index strings, where the no-index hypothesis holds
and the top families therefore follow first-encountered tie order. -/
theorem c5_topk_spec_amended_witness :
    (aggregateBiodiversity
      [⟨none, some "Abc", none, none, none, none⟩,
        ⟨none, some "Def", none, none, none, none⟩,
        ⟨none, some "Abc", none, none, none, none⟩]).topFamilies =
      specFieldTop3 (fun r => r.family)
        [⟨none, some "Abc", none, none, none, none⟩,
          ⟨none, some "Def", none, none, none, none⟩,
          ⟨none, some "Abc", none, none, none, none⟩] :=
  (c5_topk_spec_amended _).2.2.1 (by decide)

end Insights
